import Mathlib

/-!
Verification of the hive5-server session-lifecycle state machine.

This file shallowly embeds the server code (hive-server.ts, game-session.ts,
game-config.ts, hive-client.ts, messages.ts) in Lean.  Client and session
objects live in arenas (`clientObjs`, `sessObjs`); a `Nat` arena index is the
object identity, so the TypeScript reference semantics (registry entries and
session slots point at shared mutable objects) is modelled faithfully.  The
client and session registries are association lists from string ids to arena
indices, matching the JS objects used as maps.  Outbound traffic (client.send,
socket.send of raw relay data, socket.ping probes, socket.terminate) is
modelled as an event list returned next to the updated state.
-/

namespace Hive

/-- JSON values as produced by JSON.parse; `num` is limited to integers, which
covers every value the server ever inspects. -/
inductive Json where
  | null
  | bool (b : Bool)
  | num (n : Int)
  | str (s : String)
  | arr (elems : List Json)
  | obj (fields : List (String × Json))

instance : Inhabited Json := ⟨Json.null⟩

/-- Property lookup on a parsed JSON object's field list (`data['key']`);
`none` models the JS value `undefined`. -/
def jLookup : List (String × Json) → String → Option Json
  | [], _ => none
  | (k, v) :: rest, key => if k = key then some v else jLookup rest key

/-- Property access `v['key']` on a possibly-undefined JS value: accessing a
property of `undefined` or `null` throws a TypeError (modelled as `.error`),
non-object primitives yield `undefined`, objects look the key up. -/
def jIndex : Option Json → String → Except Unit (Option Json)
  | none, _ => Except.error ()
  | some Json.null, _ => Except.error ()
  | some (Json.obj fields), key => Except.ok (jLookup fields key)
  | some _, _ => Except.ok none

mutual

/-- JS string coercion of a value used as a property key (`sessions[v]`). -/
def jsToKey : Json → String
  | Json.null => "null"
  | Json.bool b => toString b
  | Json.num n => toString n
  | Json.str s => s
  | Json.arr elems => String.intercalate "," (jsToKeyList elems)
  | Json.obj _ => "[object Object]"

/-- JS string coercion of each element of an array. -/
def jsToKeyList : List Json → List String
  | [] => []
  | j :: rest => jsToKey j :: jsToKeyList rest

end

/-- Strict inequality `b !== v` between a genuine boolean and a JS value
(`none` standing for `undefined`), as used by SessionJoinedMessage. -/
def jsStrictNeq (b : Bool) : Option Json → Bool
  | some (Json.bool b2) => b != b2
  | _ => true

/-- GameConfig (game-config.ts, armory variant).  The constructor stores the
raw values it is given, so fields keep the JS-value type: `none` models a
field constructed from `undefined`. -/
structure GameConfig where
  playAsWhite : Option Json
  armory : Option Json

/-- HiveClient (hive-client.ts): id, ip, liveness flag, optional session
back-reference.  `session` holds a session-arena index (object reference). -/
structure HiveClient where
  id : String
  ip : String
  isAlive : Bool
  session : Option Nat

instance : Inhabited HiveClient := ⟨⟨"", "", true, none⟩⟩

/-- GameSession (game-session.ts): initiator is a required client reference,
peer is optional; `id` is the session id string. -/
structure GameSession where
  id : String
  initiator : Nat
  peer : Option Nat
  gameConfig : GameConfig

instance : Inhabited GameSession :=
  ⟨⟨"", 0, none, ⟨none, none⟩⟩⟩

/-- HiveClient.shortId: `id.substring(0, 6)`. -/
def shortId (id : String) : String := id.take 6

/-- Outbound structured messages (messages.ts). -/
inductive OutMsg where
  | handshake (clientId : String)
  | sessionCreated (sessionId : String)
  | sessionJoined (sessionId : String) (playAsWhite : Bool) (armory : Option Json)
  | peerDisconnected
  | sessionDestroyed
  | errorMsg (error : String) (title : String) (errText : Option String)

/-- HandshakeMessage (messages.ts). -/
def HandshakeMessage (clientId : String) : OutMsg := OutMsg.handshake clientId

/-- SessionCreatedMessage (messages.ts). -/
def SessionCreatedMessage (id : String) : OutMsg := OutMsg.sessionCreated id

/-- SessionJoinedMessage (messages.ts): the side-assignment flag of the payload
is `forPeer !== session.gameConfig.playAsWhite`, inverting the stored flag for
the peer's copy. -/
def SessionJoinedMessage (sess : GameSession) (forPeer : Bool := false) : OutMsg :=
  OutMsg.sessionJoined sess.id (jsStrictNeq forPeer sess.gameConfig.playAsWhite)
    sess.gameConfig.armory

/-- ErrorMessage.sessionNotFound (messages.ts). -/
def ErrorMessage.sessionNotFound : OutMsg :=
  OutMsg.errorMsg "sessionNotFound" "Session Not Found" none

/-- ErrorMessage.invalidRequest (messages.ts). -/
def ErrorMessage.invalidRequest : OutMsg :=
  OutMsg.errorMsg "invalidRequest" "Invalid Request" none

/-- ErrorMessage.sessionFull (messages.ts). -/
def ErrorMessage.sessionFull : OutMsg :=
  OutMsg.errorMsg "sessionFull" "Session Full" none

/-- OutboundMessage.peerDisconnected (messages.ts). -/
def OutboundMessage.peerDisconnected : OutMsg := OutMsg.peerDisconnected

/-- OutboundMessage.sessionDestroyed (messages.ts). -/
def OutboundMessage.sessionDestroyed : OutMsg := OutMsg.sessionDestroyed

/-- Observable transport-side effects of the server. -/
inductive Event where
  | sent (clientRef : Nat) (m : OutMsg)
  | sentRaw (clientRef : Nat) (raw : String)
  | probe (clientRef : Nat)
  | terminated (clientRef : Nat)

/-- The whole server state: the two object arenas plus the two registries
(`clients`, `sessions` fields of HiveServer), as association lists from string
ids to arena indices. -/
structure ServerState where
  clientObjs : List HiveClient
  sessObjs : List GameSession
  clients : List (String × Nat)
  sessions : List (String × Nat)

/-- The state of a freshly started server: empty registries. -/
def initState : ServerState := ⟨[], [], [], []⟩

/-- Association-list lookup (JS object property read). -/
def lookupA : List (String × Nat) → String → Option Nat
  | [], _ => none
  | (k, v) :: rest, key => if k = key then some v else lookupA rest key

/-- Association-list insert, replacing an existing binding for the key
(JS `obj[key] = v`). -/
def insertA : List (String × Nat) → String → Nat → List (String × Nat)
  | [], key, v => [(key, v)]
  | (k, w) :: rest, key, v =>
    if k = key then (key, v) :: rest else (k, w) :: insertA rest key v

/-- Association-list key removal (JS `delete obj[key]`). -/
def eraseA : List (String × Nat) → String → List (String × Nat)
  | [], _ => []
  | (k, v) :: rest, key =>
    if k = key then eraseA rest key else (k, v) :: eraseA rest key

/-- Dereference a client-arena index. -/
def getClient (s : ServerState) (r : Nat) : HiveClient :=
  s.clientObjs.getD r default

/-- Dereference a session-arena index. -/
def getSess (s : ServerState) (r : Nat) : GameSession :=
  s.sessObjs.getD r default

/-- Mutate a client object's session back-reference in place
(`client.session = ...` / `delete client.session`). -/
def setClientSession (s : ServerState) (r : Nat) (v : Option Nat) : ServerState :=
  { s with clientObjs := s.clientObjs.set r { getClient s r with session := v } }

/-- Mutate a client object's liveness flag in place. -/
def setClientAlive (s : ServerState) (r : Nat) (v : Bool) : ServerState :=
  { s with clientObjs := s.clientObjs.set r { getClient s r with isAlive := v } }

/-- Mutate a session object's peer slot in place
(`session.peer = ...` / `delete session.peer`). -/
def setSessPeer (s : ServerState) (r : Nat) (v : Option Nat) : ServerState :=
  { s with sessObjs := s.sessObjs.set r { getSess s r with peer := v } }

/-- HiveServer.destroySession: no-op for an unbound client; otherwise notify
the session's peer-slot occupant if alive, delete the caller's and the peer's
session back-references, and delete the registry entry at the session's id. -/
def HiveServer.destroySession (s : ServerState) (r : Nat) : ServerState × List Event :=
  match (getClient s r).session with
  | none => (s, [])
  | some sref =>
    let sess := getSess s sref
    let evs : List Event :=
      match sess.peer with
      | some p =>
        if (getClient s p).isAlive then [Event.sent p OutboundMessage.sessionDestroyed]
        else []
      | none => []
    let s1 := setClientSession s r none
    let s2 :=
      match sess.peer with
      | some p => setClientSession s1 p none
      | none => s1
    ({ s2 with sessions := eraseA s2.sessions sess.id }, evs)

/-- The part of HiveServer.joinSession after the already-in-another-session
guard: look the id up, assign `client.session` to the lookup result *before*
checking it, then either report sessionNotFound, install the client into the
empty peer slot and notify both slot occupants, or report sessionFull. -/
def joinSessionLookup (s : ServerState) (r : Nat) (sessionId : Option String) :
    ServerState × List Event :=
  let found : Option Nat :=
    match sessionId with
    | none => none
    | some sid => lookupA s.sessions sid
  let s1 := setClientSession s r found
  match found with
  | none => (s1, [Event.sent r ErrorMessage.sessionNotFound])
  | some sref =>
    let sess := getSess s1 sref
    match sess.peer with
    | none =>
      let s2 := setSessPeer s1 sref (some r)
      let sess2 := getSess s2 sref
      let peerEvs : List Event :=
        match sess2.peer with
        | some p => [Event.sent p (SessionJoinedMessage sess2 true)]
        | none => []
      (s2, peerEvs ++ [Event.sent sess2.initiator (SessionJoinedMessage sess2)])
    | some _ => (s1, [Event.sent r ErrorMessage.sessionFull])

/-- HiveServer.joinSession: reject with sessionExists when the client is bound
to a session whose id differs from the requested one, else proceed to the
lookup phase.  `sessionId = none` models a missing/undefined request field. -/
def HiveServer.joinSession (s : ServerState) (r : Nat) (sessionId : Option String) :
    ServerState × List Event :=
  match (getClient s r).session with
  | some sref =>
    if some (getSess s sref).id ≠ sessionId then
      (s, [Event.sent r (OutMsg.errorMsg "sessionExists" "Cannot Join Session"
        (some ("Already in session " ++ (getSess s sref).id ++ ", leave first")))])
    else joinSessionLookup s r sessionId
  | none => joinSessionLookup s r sessionId

/-- HiveServer.leaveSession: no-op for an unbound client; a caller that is not
the peer-slot occupant is routed to destroySession; the peer-slot occupant has
the peer slot and its own back-reference cleared and the initiator notified. -/
def HiveServer.leaveSession (s : ServerState) (r : Nat) : ServerState × List Event :=
  match (getClient s r).session with
  | none => (s, [])
  | some sref =>
    let sess := getSess s sref
    if sess.peer ≠ some r then HiveServer.destroySession s r
    else
      let s1 := setSessPeer s sref none
      let s2 := setClientSession s1 r none
      (s2, [Event.sent sess.initiator OutboundMessage.peerDisconnected])

/-- HiveServer.p2p: relay the raw message text; errors when the sender has no
session or the session's peer slot is empty; otherwise the recipient is the
peer-slot occupant, or the initiator when the sender is the peer-slot
occupant. -/
def HiveServer.p2p (s : ServerState) (r : Nat) (message : String) :
    ServerState × List Event :=
  let client := getClient s r
  match client.session with
  | none =>
    (s, [Event.sent r (OutMsg.errorMsg "noP2PSession" "No Session"
      (some ("client " ++ shortId client.id ++
        " tries to send p2p message but not in a session")))])
  | some sref =>
    let sess := getSess s sref
    match sess.peer with
    | none =>
      (s, [Event.sent r (OutMsg.errorMsg "noPeer" "No Peer"
        (some ("client " ++ shortId client.id ++
          " tries to send p2p message but session has no peer")))])
    | some p =>
      let target := if r = p then sess.initiator else p
      (s, [Event.sentRaw target message])

/-- Digit character drawn by `characters.charAt(Math.floor(Math.random()*10))`
over the alphabet "0123456789". -/
def digitChar (i : Fin 10) : Char := Char.ofNat (48 + i.val)

/-- The 6-character id assembled from six random digit draws. -/
def idFromDraws (ds : List (Fin 10)) : String := String.mk (ds.map digitChar)

/-- The recursion of HiveServer.genSessionId, made structural on a fuel
argument so it evaluates definitionally; each attempt consumes six digits of
the random stream and retries on a registry collision. -/
def genSessionIdAux (sessions : List (String × Nat)) :
    Nat → List (Fin 10) → Option String
  | 0, _ => none
  | n + 1, draws =>
    if draws.length < 6 then none
    else if (sessions.map Prod.fst).contains (idFromDraws (draws.take 6)) then
      genSessionIdAux sessions n (draws.drop 6)
    else some (idFromDraws (draws.take 6))

/-- HiveServer.genSessionId: build a 6-digit id from the random stream and
retry on a registry collision.  The infinite random stream is modelled as a
finite list of pre-drawn digits; `none` means the modelled stream was
exhausted before a fresh id appeared (the real code would keep drawing).
Because every attempt consumes six digits, fuel equal to the stream length
never runs out before the stream does. -/
def HiveServer.genSessionId (sessions : List (String × Nat))
    (draws : List (Fin 10)) : Option String :=
  genSessionIdAux sessions draws.length draws

/-- HiveServer.createNewSession: generate a fresh id, append a new session
object with the caller as initiator and an empty peer slot, register it, bind
the caller's back-reference, and reply with sessionCreated.  `none` only when
the modelled random stream is exhausted. -/
def HiveServer.createNewSession (s : ServerState) (r : Nat) (gameConfig : GameConfig)
    (draws : List (Fin 10)) : Option (ServerState × List Event) :=
  match HiveServer.genSessionId s.sessions draws with
  | none => none
  | some sid =>
    let sref := s.sessObjs.length
    let sess : GameSession := ⟨sid, r, none, gameConfig⟩
    let s1 := { s with sessObjs := s.sessObjs ++ [sess] }
    let s2 := { s1 with sessions := insertA s1.sessions sid sref }
    let s3 := setClientSession s2 r (some sref)
    some (s3, [Event.sent r (SessionCreatedMessage sid)])

/-- HiveServer.onConnection: allocate a HiveClient (which sends the handshake
from its constructor) and register it, replacing any previous registry entry
with the same id. -/
def HiveServer.onConnection (s : ServerState) (id ip : String) :
    ServerState × List Event :=
  let r := s.clientObjs.length
  let c : HiveClient := ⟨id, ip, true, none⟩
  let s1 := { s with clientObjs := s.clientObjs ++ [c] }
  let s2 := { s1 with clients := insertA s1.clients id r }
  (s2, [Event.sent r (HandshakeMessage id)])

/-- HiveServer.onClose: deregister the client, mark it dead, notify the other
session occupant when the client occupies a slot, and destroy the session when
neither the initiator nor the peer is alive. -/
def HiveServer.onClose (s : ServerState) (r : Nat) : ServerState × List Event :=
  let cid := (getClient s r).id
  let s1 := { s with clients := eraseA s.clients cid }
  let s2 := setClientAlive s1 r false
  match (getClient s2 r).session with
  | none => (s2, [])
  | some sref =>
    let sess := getSess s2 sref
    let evs1 : List Event :=
      if sess.initiator = r then
        match sess.peer with
        | some p => [Event.sent p OutboundMessage.peerDisconnected]
        | none => []
      else if sess.peer = some r then
        [Event.sent sess.initiator OutboundMessage.peerDisconnected]
      else []
    let initiatorDead := !(getClient s2 sess.initiator).isAlive
    let peerDead :=
      match sess.peer with
      | none => true
      | some p => !(getClient s2 p).isAlive
    if initiatorDead && peerDead then
      let step := HiveServer.destroySession s2 r
      (step.1, evs1 ++ step.2)
    else (s2, evs1)

/-- The body of HiveServer.ping's `for..in` loop over the client registry:
terminate the first client found dead and stop the pass; otherwise clear the
flag and probe, continuing with the rest. -/
def pingLoop (s : ServerState) : List (String × Nat) → ServerState × List Event
  | [] => (s, [])
  | (_, r) :: rest =>
    let c := getClient s r
    if !c.isAlive then (s, [Event.terminated r])
    else
      let s1 := setClientAlive s r false
      let step := pingLoop s1 rest
      (step.1, Event.probe r :: step.2)

/-- HiveServer.ping: one liveness-sweep pass over the registered clients. -/
def HiveServer.ping (s : ServerState) : ServerState × List Event :=
  pingLoop s s.clients

/-- HiveServer.onMessage: dispatch one inbound transport message.  `raw` is the
message text (relayed verbatim by the p2p branch), `data` its JSON.parse result
(`none` when parsing failed), `draws` the random stream consumed by a
newSession request.  `Except.error` models an uncaught TypeError thrown while
reading a property of `undefined`/`null`; `Except.ok none` is a modelling
artifact of the finite random stream running out inside createNewSession. -/
def HiveServer.onMessage (s : ServerState) (r : Nat) (raw : String)
    (data : Option Json) (draws : List (Fin 10)) :
    Except Unit (Option (ServerState × List Event)) :=
  match data with
  | none => Except.ok (some (s, [Event.sent r ErrorMessage.invalidRequest]))
  | some Json.null => Except.error ()
  | some (Json.obj fields) =>
    match jLookup fields "context" with
    | some (Json.str "newSession") =>
      match jIndex (jLookup fields "config") "playAsWhite",
            jIndex (jLookup fields "config") "armory" with
      | Except.ok pw, Except.ok ar =>
        match HiveServer.createNewSession s r ⟨pw, ar⟩ draws with
        | some res => Except.ok (some res)
        | none => Except.ok none
      | _, _ => Except.error ()
    | some (Json.str "destroySession") =>
      Except.ok (some (HiveServer.destroySession s r))
    | some (Json.str "joinSession") =>
      Except.ok (some (HiveServer.joinSession s r
        ((jLookup fields "sessionId").map jsToKey)))
    | some (Json.str "leaveSession") =>
      Except.ok (some (HiveServer.leaveSession s r))
    | some (Json.str "p2p") =>
      Except.ok (some (HiveServer.p2p s r raw))
    | _ =>
      Except.ok (some (s, [Event.sent r ErrorMessage.invalidRequest]))
  | some _ => Except.ok (some (s, [Event.sent r ErrorMessage.invalidRequest]))

/-- Is the context tag one of the five transitions onMessage dispatches on? -/
def knownTag : Option Json → Bool
  | some (Json.str s) =>
    s = "newSession" || s = "destroySession" || s = "joinSession" ||
      s = "leaveSession" || s = "p2p"
  | _ => false

/-- The operations of the session-lifecycle state machine: connection accept,
the four session transitions, and transport close.  Clients are addressed by
their arena reference (object identity). -/
inductive Op where
  | accept (id ip : String)
  | newSession (r : Nat) (cfg : GameConfig) (draws : List (Fin 10))
  | joinSession (r : Nat) (sid : Option String)
  | leaveSession (r : Nat)
  | destroySession (r : Nat)
  | close (r : Nat)

/-- Apply one operation.  A newSession whose modelled random stream runs out is
a no-op (the real server would keep drawing digits). -/
def applyOp (s : ServerState) : Op → ServerState × List Event
  | Op.accept id ip => HiveServer.onConnection s id ip
  | Op.newSession r cfg draws =>
    match HiveServer.createNewSession s r cfg draws with
    | some res => res
    | none => (s, [])
  | Op.joinSession r sid => HiveServer.joinSession s r sid
  | Op.leaveSession r => HiveServer.leaveSession s r
  | Op.destroySession r => HiveServer.destroySession s r
  | Op.close r => HiveServer.onClose s r

/-- Run a sequence of operations from a starting state. -/
def runOps (s : ServerState) : List Op → ServerState
  | [] => s
  | op :: rest => runOps (applyOp s op).1 rest

/-- Cross-reference consistency as the spec states it: every registered client
whose session back-reference is set occupies the initiator or peer slot of
that session and that session is registered, and every slot of a registered
session holds a client whose back-reference is that session. -/
def consistent (s : ServerState) : Bool :=
  (s.clients.all fun kv =>
    match (getClient s kv.2).session with
    | none => true
    | some sref =>
      (s.sessions.any fun sv => sv.2 = sref) &&
        ((getSess s sref).initiator = kv.2 || (getSess s sref).peer = some kv.2)) &&
  (s.sessions.all fun sv =>
    ((getClient s (getSess s sv.2).initiator).session = some sv.2) &&
      match (getSess s sv.2).peer with
      | none => true
      | some p => (getClient s p).session = some sv.2)

/-! ### Access lemmas for the object arenas -/

theorem getD_set_self {α : Type} (l : List α) (n : Nat) (a d : α)
    (h : n < l.length) : (l.set n a).getD n d = a := by
  induction l generalizing n with
  | nil => simp at h
  | cons x xs ih =>
    cases n with
    | zero => rfl
    | succ m => simpa using ih m (by simpa using h)

theorem getD_set_ne {α : Type} (l : List α) (m n : Nat) (a d : α)
    (h : m ≠ n) : (l.set m a).getD n d = l.getD n d := by
  induction l generalizing m n with
  | nil => rfl
  | cons x xs ih =>
    cases m with
    | zero =>
      cases n with
      | zero => exact absurd rfl h
      | succ k => rfl
    | succ j =>
      cases n with
      | zero => rfl
      | succ k => simpa using ih j k (fun hh => h (by rw [hh]))

theorem getClient_setClientSession_self (s : ServerState) (r : Nat) (v : Option Nat)
    (h : r < s.clientObjs.length) :
    getClient (setClientSession s r v) r = { getClient s r with session := v } :=
  getD_set_self s.clientObjs r _ default h

theorem getClient_setClientSession_ne (s : ServerState) (r q : Nat) (v : Option Nat)
    (h : r ≠ q) :
    getClient (setClientSession s r v) q = getClient s q :=
  getD_set_ne s.clientObjs r q _ default h

theorem getSess_setClientSession (s : ServerState) (r : Nat) (v : Option Nat)
    (t : Nat) : getSess (setClientSession s r v) t = getSess s t := rfl

theorem getSess_setSessPeer_self (s : ServerState) (t : Nat) (v : Option Nat)
    (h : t < s.sessObjs.length) :
    getSess (setSessPeer s t v) t = { getSess s t with peer := v } :=
  getD_set_self s.sessObjs t _ default h

theorem getSess_setSessPeer_ne (s : ServerState) (t u : Nat) (v : Option Nat)
    (h : t ≠ u) : getSess (setSessPeer s t v) u = getSess s u :=
  getD_set_ne s.sessObjs t u _ default h

theorem getClient_setSessPeer (s : ServerState) (t : Nat) (v : Option Nat)
    (q : Nat) : getClient (setSessPeer s t v) q = getClient s q := rfl

/-! ### Characterization of the joinSession success path -/

/-- On a registered session with an empty peer slot, the lookup phase of
joinSession binds the client, installs it as peer, and emits the two mirrored
sessionJoined messages. -/
theorem joinSessionLookup_success (s : ServerState) (r sref : Nat) (sid : String)
    (hsref : sref < s.sessObjs.length)
    (hlook : lookupA s.sessions sid = some sref)
    (hpeer : (getSess s sref).peer = none) :
    joinSessionLookup s r (some sid) =
      (setSessPeer (setClientSession s r (some sref)) sref (some r),
       [Event.sent r (SessionJoinedMessage { getSess s sref with peer := some r } true),
        Event.sent (getSess s sref).initiator
          (SessionJoinedMessage { getSess s sref with peer := some r })]) := by
  unfold joinSessionLookup
  simp only [hlook]
  have h1 : getSess (setClientSession s r (some sref)) sref = getSess s sref :=
    getSess_setClientSession s r (some sref) sref
  rw [h1, hpeer]
  have h2 : getSess (setSessPeer (setClientSession s r (some sref)) sref (some r)) sref
      = { getSess s sref with peer := some r } := by
    rw [getSess_setSessPeer_self _ _ _ (by simpa using hsref), h1]
  rw [h2]
  simp

/-- The already-bound guard of joinSession passes when the client is unbound
or bound to a session object whose id equals the requested one. -/
theorem joinSession_guard_pass (s : ServerState) (r : Nat) (sid : String)
    (hbound : (getClient s r).session = none ∨
      ∃ b, (getClient s r).session = some b ∧ (getSess s b).id = sid) :
    HiveServer.joinSession s r (some sid) = joinSessionLookup s r (some sid) := by
  unfold HiveServer.joinSession
  rcases hbound with h | ⟨b, hb, hid⟩
  · rw [h]
  · rw [hb]
    simp [hid]

theorem jsStrictNeq_true (w : Bool) :
    jsStrictNeq true (some (Json.bool w)) = !w := by
  cases w <;> rfl

theorem jsStrictNeq_false (w : Bool) :
    jsStrictNeq false (some (Json.bool w)) = w := by
  cases w <;> rfl

/-! ### Concrete fixtures used by witnesses and counterexamples -/

/-- A game configuration with the side-assignment flag set. -/
def cfgTrue : GameConfig := ⟨some (Json.bool true), some (Json.obj [])⟩

/-- Random digit draws producing the session id "123456". -/
def drawsSix : List (Fin 10) := [1, 2, 3, 4, 5, 6]

/-- Client 0 connects and creates a session; client 1 connects and joins it. -/
def opsPair : List Op :=
  [Op.accept "aaa" "ip1", Op.newSession 0 cfgTrue drawsSix,
   Op.accept "bbb" "ip2", Op.joinSession 1 (some "123456")]

/-- Session "123456" with initiator 0 and peer 1, both bound. -/
def statePair : ServerState := runOps initState opsPair

/-- Session "123456" with initiator 0 and an empty peer slot; client 1
connected but unbound. -/
def stateSolo : ServerState := runOps initState (opsPair.take 3)

/-- statePair plus a third connected, unbound client 2. -/
def stateTriple : ServerState := runOps initState (opsPair ++ [Op.accept "ccc" "ip3"])

/-- Client 0 created session "123456" and then joined it itself: both the
initiator and the peer slot hold client 0. -/
def stateSelf : ServerState :=
  runOps initState
    [Op.accept "aaa" "ip1", Op.newSession 0 cfgTrue drawsSix,
     Op.joinSession 0 (some "123456")]

/-- One connected, unbound client. -/
def stateUnbound : ServerState := runOps initState [Op.accept "aaa" "ip1"]

/-- Client 0 created session "123456"; a second transport connected presenting
the same client id "aaa" (a reconnecting initiator), yielding the unbound
client object 1. -/
def stateRecon : ServerState :=
  runOps initState
    [Op.accept "aaa" "ip1", Op.newSession 0 cfgTrue drawsSix,
     Op.accept "aaa" "ip2"]

/-! ### C4 -/

/-- The full success path of joinSession: guard passed, session registered,
peer slot empty. -/
theorem joinSession_success_core (s : ServerState) (r sref : Nat) (sid : String)
    (hsref : sref < s.sessObjs.length)
    (hlook : lookupA s.sessions sid = some sref)
    (hid : (getSess s sref).id = sid)
    (hpeer : (getSess s sref).peer = none)
    (hbound : (getClient s r).session = none ∨ (getClient s r).session = some sref) :
    HiveServer.joinSession s r (some sid) =
      (setSessPeer (setClientSession s r (some sref)) sref (some r),
       [Event.sent r (SessionJoinedMessage { getSess s sref with peer := some r } true),
        Event.sent (getSess s sref).initiator
          (SessionJoinedMessage { getSess s sref with peer := some r })]) := by
  have hguard : HiveServer.joinSession s r (some sid) = joinSessionLookup s r (some sid) := by
    refine joinSession_guard_pass s r sid ?_
    rcases hbound with h | h
    · exact Or.inl h
    · exact Or.inr ⟨sref, h, hid⟩
  rw [hguard, joinSessionLookup_success s r sref sid hsref hlook hpeer]

/-- C4: joining a registered session with an empty peer slot (from a client
not bound to a different session) installs the client in the peer slot and
sends sessionJoined to both occupants, the peer's copy carrying the negated
side-assignment flag and the initiator's the stored one, both with the same
session id and armory. -/
theorem joinSession_success_spec (s : ServerState) (r sref : Nat) (sid : String)
    (w : Bool)
    (hr : r < s.clientObjs.length)
    (hsref : sref < s.sessObjs.length)
    (hlook : lookupA s.sessions sid = some sref)
    (hid : (getSess s sref).id = sid)
    (hpeer : (getSess s sref).peer = none)
    (hpw : (getSess s sref).gameConfig.playAsWhite = some (Json.bool w))
    (hbound : (getClient s r).session = none ∨ (getClient s r).session = some sref) :
    getSess (HiveServer.joinSession s r (some sid)).1 sref =
      { getSess s sref with peer := some r } ∧
    (getClient (HiveServer.joinSession s r (some sid)).1 r).session = some sref ∧
    (HiveServer.joinSession s r (some sid)).2 =
      [Event.sent r (OutMsg.sessionJoined sid (!w) (getSess s sref).gameConfig.armory),
       Event.sent (getSess s sref).initiator
         (OutMsg.sessionJoined sid w (getSess s sref).gameConfig.armory)] := by
  rw [joinSession_success_core s r sref sid hsref hlook hid hpeer hbound]
  refine ⟨?_, ?_, ?_⟩
  · rw [getSess_setSessPeer_self _ _ _ (by simpa using hsref),
      getSess_setClientSession]
  · show (getClient (setSessPeer (setClientSession s r (some sref)) sref (some r)) r).session
      = some sref
    rw [getClient_setSessPeer,
      getClient_setClientSession_self s r (some sref) hr]
  · simp only [SessionJoinedMessage]
    rw [hid]
    simp only [hpw, jsStrictNeq_true, jsStrictNeq_false]

/-- Witness for C4 at a concrete state: client 1 joins the waiting session
"123456" and the two mirrored sessionJoined messages are emitted. -/
theorem joinSession_success_spec_witness :
    getSess (HiveServer.joinSession stateSolo 1 (some "123456")).1 0 =
      { getSess stateSolo 0 with peer := some 1 } ∧
    (getClient (HiveServer.joinSession stateSolo 1 (some "123456")).1 1).session = some 0 ∧
    (HiveServer.joinSession stateSolo 1 (some "123456")).2 =
      [Event.sent 1 (OutMsg.sessionJoined "123456" (!true)
        (getSess stateSolo 0).gameConfig.armory),
       Event.sent (getSess stateSolo 0).initiator
         (OutMsg.sessionJoined "123456" true (getSess stateSolo 0).gameConfig.armory)] :=
  joinSession_success_spec stateSolo 1 0 "123456" true (by decide) (by decide)
    (by decide) (by decide) (by decide) rfl (Or.inl rfl)

/-! ### C10 -/

theorem map_initiator_set_peer (l : List GameSession) (n : Nat) (v : Option Nat) :
    (l.set n { l.getD n default with peer := v }).map GameSession.initiator =
      l.map GameSession.initiator := by
  induction l generalizing n with
  | nil => rfl
  | cons x xs ih =>
    cases n with
    | zero => rfl
    | succ m => simpa using ih m

/-- C10: joinSession leaves every session's initiator slot unchanged — it
never compares the joining client's identifier with the initiator's — so a
client re-presenting the initiator's identifier (a reconnecting initiator, or
the bound initiator re-joining its own session while the peer slot is empty)
is installed into the peer slot with the peer's inverted side assignment,
never restored into the initiator slot. -/
theorem joinSession_initiator_frame (s : ServerState) (r : Nat) (sid : Option String) :
    ((HiveServer.joinSession s r sid).1.sessObjs.map GameSession.initiator =
      s.sessObjs.map GameSession.initiator) ∧
    (∀ sref sidStr, sid = some sidStr →
      r < s.clientObjs.length →
      sref < s.sessObjs.length →
      lookupA s.sessions sidStr = some sref →
      (getSess s sref).id = sidStr →
      (getSess s sref).peer = none →
      (getClient s r).id = (getClient s (getSess s sref).initiator).id →
      ((getClient s r).session = none ∨ (getClient s r).session = some sref) →
      (getSess (HiveServer.joinSession s r sid).1 sref).peer = some r ∧
      (getSess (HiveServer.joinSession s r sid).1 sref).initiator =
        (getSess s sref).initiator ∧
      (∀ w, (getSess s sref).gameConfig.playAsWhite = some (Json.bool w) →
        Event.sent r (OutMsg.sessionJoined sidStr (!w)
          (getSess s sref).gameConfig.armory) ∈ (HiveServer.joinSession s r sid).2)) := by
  constructor
  · have frameLookup : ∀ t, ((joinSessionLookup s r t).1.sessObjs.map GameSession.initiator =
        s.sessObjs.map GameSession.initiator) := by
      intro t
      unfold joinSessionLookup
      rcases hfound : (match t with
        | none => none
        | some sid => lookupA s.sessions sid : Option Nat) with _ | sref
      · simp only [hfound, setClientSession]
      · simp only [hfound]
        rcases hp : (getSess (setClientSession s r (some sref)) sref).peer with _ | q
        · simp only [hp, setSessPeer, setClientSession]
          exact map_initiator_set_peer s.sessObjs sref (some r)
        · simp only [hp, setClientSession]
    unfold HiveServer.joinSession
    rcases hb : (getClient s r).session with _ | b
    · exact frameLookup sid
    · dsimp only
      by_cases hg : some (getSess s b).id ≠ sid
      · rw [if_pos hg]
      · rw [if_neg hg]
        exact frameLookup sid
  · intro sref sidStr hssid hr hsref hlook hid hpeer _ hbound
    subst hssid
    rw [joinSession_success_core s r sref sidStr hsref hlook hid hpeer hbound]
    refine ⟨?_, ?_, ?_⟩
    · rw [getSess_setSessPeer_self _ _ _ (by simpa using hsref),
        getSess_setClientSession]
    · rw [getSess_setSessPeer_self _ _ _ (by simpa using hsref),
        getSess_setClientSession]
    · intro w hpw
      simp only [SessionJoinedMessage, hid, hpw, jsStrictNeq_true]
      exact List.mem_cons_self _ _

/-- Witness for C10: the reconnecting initiator (client object 1, presenting
the same id "aaa" as initiator object 0) is installed into the peer slot of
its old session, the initiator slot still holding object 0, and receives the
peer's inverted side assignment. -/
theorem joinSession_initiator_frame_witness :
    (HiveServer.joinSession stateRecon 1 (some "123456")).1.sessObjs.map
        GameSession.initiator =
      stateRecon.sessObjs.map GameSession.initiator ∧
    (getSess (HiveServer.joinSession stateRecon 1 (some "123456")).1 0).peer = some 1 ∧
    (getSess (HiveServer.joinSession stateRecon 1 (some "123456")).1 0).initiator = 0 ∧
    Event.sent 1 (OutMsg.sessionJoined "123456" (!true)
        (getSess stateRecon 0).gameConfig.armory) ∈
      (HiveServer.joinSession stateRecon 1 (some "123456")).2 := by
  have h := joinSession_initiator_frame stateRecon 1 (some "123456")
  have h2 := h.2 0 "123456" rfl (by decide) (by decide) (by decide) (by decide)
    (by decide) (by decide) (Or.inl rfl)
  exact ⟨h.1, h2.1, h2.2.1.trans (by decide), h2.2.2 true rfl⟩

/-! ### C3 -/

/-- C3 counterexample: in the session "123456" with initiator 0 and peer 1,
destroySession invoked by the peer sends the session-destroyed message to the
peer itself (client 1) — not to the other occupant (client 0) — and leaves
the initiator's session back-reference set even though the session is removed
from the registry. -/
theorem destroySession_by_peer_counterexample :
    (getSess statePair 0).initiator = 0 ∧
    (getSess statePair 0).peer = some 1 ∧
    (getClient statePair 1).session = some 0 ∧
    (HiveServer.destroySession statePair 1).2 =
      [Event.sent 1 OutboundMessage.sessionDestroyed] ∧
    (getClient (HiveServer.destroySession statePair 1).1 0).session = some 0 ∧
    (HiveServer.destroySession statePair 1).1.sessions = [] := by
  refine ⟨by decide, by decide, by decide, rfl, by decide, by decide⟩

/-- Characterization of destroySession, shared by the session-teardown
claims. -/
theorem destroySession_core (s : ServerState) (r : Nat) :
    ((getClient s r).session = none → HiveServer.destroySession s r = (s, [])) ∧
    (∀ sref, (getClient s r).session = some sref → r < s.clientObjs.length →
      (HiveServer.destroySession s r).1.sessions =
        eraseA s.sessions (getSess s sref).id ∧
      (HiveServer.destroySession s r).1.sessObjs = s.sessObjs ∧
      (HiveServer.destroySession s r).1.clients = s.clients ∧
      (getClient (HiveServer.destroySession s r).1 r).session = none ∧
      ((getSess s sref).peer = none → (HiveServer.destroySession s r).2 = []) ∧
      (∀ p, (getSess s sref).peer = some p → p < s.clientObjs.length →
        (getClient (HiveServer.destroySession s r).1 p).session = none ∧
        (HiveServer.destroySession s r).2 =
          (if (getClient s p).isAlive then
            [Event.sent p OutboundMessage.sessionDestroyed] else [])) ∧
      (∀ q, q ≠ r → (getSess s sref).peer ≠ some q →
        getClient (HiveServer.destroySession s r).1 q = getClient s q)) := by
  constructor
  · intro h
    unfold HiveServer.destroySession
    rw [h]
  · intro sref hs hr
    unfold HiveServer.destroySession
    rw [hs]
    dsimp only
    rcases hp : (getSess s sref).peer with _ | p
    · refine ⟨rfl, rfl, rfl, ?_, fun _ => rfl, ?_, ?_⟩
      · show (getClient (setClientSession s r none) r).session = none
        rw [getClient_setClientSession_self s r none hr]
      · intro p hcon
        cases hcon
      · intro q hq _
        show getClient (setClientSession s r none) q = getClient s q
        exact getClient_setClientSession_ne s r q none (fun h => hq h.symm)
    · refine ⟨rfl, rfl, rfl, ?_, ?_, ?_, ?_⟩
      · show (getClient (setClientSession (setClientSession s r none) p none) r).session
            = none
        by_cases hpr : p = r
        · subst hpr
          rw [getClient_setClientSession_self _ p none
            (by simpa [setClientSession] using hr)]
        · rw [getClient_setClientSession_ne _ p r none hpr,
            getClient_setClientSession_self s r none hr]
      · intro hcon
        cases hcon
      · intro p' hp' hpl
        cases hp'
        constructor
        · show (getClient (setClientSession (setClientSession s r none) p none) p).session
              = none
          rw [getClient_setClientSession_self _ p none
            (by simpa [setClientSession] using hpl)]
        · rfl
      · intro q hq hqp
        have hqp' : p ≠ q := fun h => hqp (congrArg some h)
        show getClient (setClientSession (setClientSession s r none) p none) q
            = getClient s q
        rw [getClient_setClientSession_ne _ p q none hqp',
          getClient_setClientSession_ne s r q none (fun h => hq h.symm)]

/-- C3 amended: destroySession from a bound client notifies the peer-slot
occupant (if alive) with session-destroyed — the other occupant when the
caller is the initiator, the caller itself when the caller is the peer —
clears the caller's and the peer-slot occupant's back-references (leaving the
initiator's back-reference in place whenever the initiator is neither of
those two), and removes the registry entry at the session's id; from an
unbound client it changes nothing and sends nothing. -/
theorem destroySession_spec (s : ServerState) (r : Nat) :
    ((getClient s r).session = none → HiveServer.destroySession s r = (s, [])) ∧
    (∀ sref, (getClient s r).session = some sref → r < s.clientObjs.length →
      (HiveServer.destroySession s r).1.sessions =
        eraseA s.sessions (getSess s sref).id ∧
      (HiveServer.destroySession s r).1.sessObjs = s.sessObjs ∧
      (HiveServer.destroySession s r).1.clients = s.clients ∧
      (getClient (HiveServer.destroySession s r).1 r).session = none ∧
      ((getSess s sref).peer = none → (HiveServer.destroySession s r).2 = []) ∧
      (∀ p, (getSess s sref).peer = some p → p < s.clientObjs.length →
        (getClient (HiveServer.destroySession s r).1 p).session = none ∧
        (HiveServer.destroySession s r).2 =
          (if (getClient s p).isAlive then
            [Event.sent p OutboundMessage.sessionDestroyed] else [])) ∧
      (∀ q, q ≠ r → (getSess s sref).peer ≠ some q →
        getClient (HiveServer.destroySession s r).1 q = getClient s q)) :=
  destroySession_core s r

/-- Witness for C3 (amended) at a concrete state: the initiator (client 0)
destroys the session "123456"; the live peer 1 is notified, both back
references are cleared, the registry entry is removed, and the unbound client
2 destroying is a no-op. -/
theorem destroySession_spec_witness :
    (HiveServer.destroySession stateTriple 0).1.sessions =
      eraseA stateTriple.sessions "123456" ∧
    (getClient (HiveServer.destroySession stateTriple 0).1 0).session = none ∧
    (getClient (HiveServer.destroySession stateTriple 0).1 1).session = none ∧
    (HiveServer.destroySession stateTriple 0).2 =
      [Event.sent 1 OutboundMessage.sessionDestroyed] ∧
    HiveServer.destroySession stateTriple 2 = (stateTriple, []) := by
  have h := (destroySession_spec stateTriple 0).2 0 (by decide) (by decide)
  have hpeer := h.2.2.2.2.2.1 1 (by decide) (by decide)
  refine ⟨?_, h.2.2.2.1, hpeer.1, ?_, ?_⟩
  · exact h.1.trans (by rfl)
  · exact hpeer.2.trans (by rfl)
  · exact (destroySession_spec stateTriple 2).1 (by decide)

/-! ### C6 -/

/-- C6: on a session with distinct initiator and peer, leaveSession by the
peer clears exactly the peer slot and the peer's binding, preserves the
initiator slot, the registry entry and the configuration, and notifies the
initiator with peerDisconnected; leaveSession by the initiator destroys the
session entirely; leaveSession by an unbound client changes nothing. -/
theorem leaveSession_spec (s : ServerState) (i p sref : Nat)
    (hi : i < s.clientObjs.length) (hp : p < s.clientObjs.length)
    (hsref : sref < s.sessObjs.length)
    (hinit : (getSess s sref).initiator = i)
    (hpeer : (getSess s sref).peer = some p)
    (hip : i ≠ p) :
    ((getClient s p).session = some sref →
      getSess (HiveServer.leaveSession s p).1 sref =
        { getSess s sref with peer := none } ∧
      (getClient (HiveServer.leaveSession s p).1 p).session = none ∧
      (∀ q, q ≠ p → getClient (HiveServer.leaveSession s p).1 q = getClient s q) ∧
      (HiveServer.leaveSession s p).1.sessions = s.sessions ∧
      (∀ t, t ≠ sref → getSess (HiveServer.leaveSession s p).1 t = getSess s t) ∧
      (HiveServer.leaveSession s p).2 =
        [Event.sent i OutboundMessage.peerDisconnected]) ∧
    ((getClient s i).session = some sref →
      (HiveServer.leaveSession s i).1.sessions =
        eraseA s.sessions (getSess s sref).id ∧
      (getClient (HiveServer.leaveSession s i).1 i).session = none ∧
      (getClient (HiveServer.leaveSession s i).1 p).session = none ∧
      (HiveServer.leaveSession s i).2 =
        (if (getClient s p).isAlive then
          [Event.sent p OutboundMessage.sessionDestroyed] else [])) ∧
    (∀ q, (getClient s q).session = none → HiveServer.leaveSession s q = (s, [])) := by
  refine ⟨?_, ?_, ?_⟩
  · intro hb
    unfold HiveServer.leaveSession
    rw [hb]
    dsimp only
    rw [if_neg (by rw [hpeer]; exact fun h => h rfl)]
    refine ⟨?_, ?_, ?_, rfl, ?_, by rw [hinit]⟩
    · show getSess (setClientSession (setSessPeer s sref none) p none) sref =
        { getSess s sref with peer := none }
      rw [getSess_setClientSession,
        getSess_setSessPeer_self s sref none (by simpa using hsref)]
    · show (getClient (setClientSession (setSessPeer s sref none) p none) p).session = none
      rw [getClient_setClientSession_self _ p none (by simpa [setSessPeer] using hp)]
    · intro q hq
      show getClient (setClientSession (setSessPeer s sref none) p none) q = getClient s q
      rw [getClient_setClientSession_ne _ p q none (fun h => hq h.symm),
        getClient_setSessPeer]
    · intro t ht
      show getSess (setClientSession (setSessPeer s sref none) p none) t = getSess s t
      rw [getSess_setClientSession,
        getSess_setSessPeer_ne s sref t none (fun h => ht h.symm)]
  · intro hb
    unfold HiveServer.leaveSession
    rw [hb]
    dsimp only
    rw [if_pos (by rw [hpeer]; exact fun h => hip (Option.some_injective _ h).symm)]
    have h := (destroySession_core s i).2 sref hb hi
    have hpp := h.2.2.2.2.2.1 p hpeer hp
    exact ⟨h.1, h.2.2.2.1, hpp.1, hpp.2⟩
  · intro q hq
    unfold HiveServer.leaveSession
    rw [hq]

/-- Witness for C6 at a concrete state: the peer (client 1) leaving keeps the
session registered with initiator 0 and empties the peer slot; the initiator
leaving removes the session from the registry; the unbound client 2 leaving is
a no-op. -/
theorem leaveSession_spec_witness :
    getSess (HiveServer.leaveSession stateTriple 1).1 0 =
      { getSess stateTriple 0 with peer := none } ∧
    (getClient (HiveServer.leaveSession stateTriple 1).1 1).session = none ∧
    (HiveServer.leaveSession stateTriple 1).1.sessions = stateTriple.sessions ∧
    (HiveServer.leaveSession stateTriple 1).2 =
      [Event.sent 0 OutboundMessage.peerDisconnected] ∧
    (HiveServer.leaveSession stateTriple 0).1.sessions = [] ∧
    HiveServer.leaveSession stateTriple 2 = (stateTriple, []) := by
  have h := leaveSession_spec stateTriple 0 1 0 (by decide) (by decide) (by decide)
    (by decide) (by decide) (by decide)
  have hpeerCase := h.1 (by decide)
  have hinitCase := h.2.1 (by decide)
  exact ⟨hpeerCase.1, hpeerCase.2.1, hpeerCase.2.2.2.1, hpeerCase.2.2.2.2.2,
    hinitCase.1.trans (by rfl), h.2.2 2 (by decide)⟩

/-! ### C5 -/

/-- C5 counterexample: client 0 created session "123456" and then joined it,
occupying both the initiator and the peer slot; it is bound to the session,
the counterpart slot is occupied, yet its relayed message is delivered back to
client 0 itself. -/
theorem p2p_self_echo_counterexample :
    (getClient stateSelf 0).session = some 0 ∧
    (getSess stateSelf 0).initiator = 0 ∧
    (getSess stateSelf 0).peer = some 0 ∧
    (HiveServer.p2p stateSelf 0 "xyz").2 = [Event.sentRaw 0 "xyz"] :=
  ⟨by decide, by decide, by decide, rfl⟩

/-- C5 amended: a relay message from a bound client in a session with a
non-empty peer slot is forwarded verbatim to exactly one recipient — the
peer-slot occupant, or the initiator when the sender is the peer-slot
occupant; the recipient differs from the sender except when the sender
occupies both slots, in which case the message is echoed back to the sender.
An unbound sender gets a noP2PSession error, a sender whose session has an
empty peer slot gets a noPeer error, and nothing is forwarded in either error
case. -/
theorem p2p_spec (s : ServerState) (r : Nat) (msg : String) :
    ((getClient s r).session = none →
      HiveServer.p2p s r msg =
        (s, [Event.sent r (OutMsg.errorMsg "noP2PSession" "No Session"
          (some ("client " ++ shortId (getClient s r).id ++
            " tries to send p2p message but not in a session")))])) ∧
    (∀ sref, (getClient s r).session = some sref →
      ((getSess s sref).peer = none →
        HiveServer.p2p s r msg =
          (s, [Event.sent r (OutMsg.errorMsg "noPeer" "No Peer"
            (some ("client " ++ shortId (getClient s r).id ++
              " tries to send p2p message but session has no peer")))])) ∧
      (∀ p, (getSess s sref).peer = some p →
        HiveServer.p2p s r msg =
          (s, [Event.sentRaw (if r = p then (getSess s sref).initiator else p) msg]) ∧
        (¬(p = r ∧ (getSess s sref).initiator = r) →
          (if r = p then (getSess s sref).initiator else p) ≠ r) ∧
        (p = r → (getSess s sref).initiator = r →
          (if r = p then (getSess s sref).initiator else p) = r))) := by
  refine ⟨?_, ?_⟩
  · intro h
    unfold HiveServer.p2p
    dsimp only
    rw [h]
  · intro sref hb
    constructor
    · intro hpn
      unfold HiveServer.p2p
      dsimp only
      rw [hb]
      dsimp only
      rw [hpn]
    · intro p hpp
      refine ⟨?_, ?_, ?_⟩
      · unfold HiveServer.p2p
        dsimp only
        rw [hb]
        dsimp only
        rw [hpp]
      · intro hcon
        by_cases hrp : r = p
        · rw [if_pos hrp]
          intro hinit
          exact hcon ⟨hrp.symm, hinit⟩
        · rw [if_neg hrp]
          exact fun h => hrp h.symm
      · intro hpr hinit
        rw [if_pos hpr.symm]
        exact hinit

/-- Witness for C5 (amended): in session "123456" (initiator 0, peer 1) the
peer's relayed text goes exactly to the initiator; the unbound client 1 of the
solo state gets noP2PSession; the initiator of the solo state (empty peer
slot) gets noPeer. -/
theorem p2p_spec_witness :
    HiveServer.p2p statePair 1 "hello" =
      (statePair, [Event.sentRaw (if 1 = 1 then (getSess statePair 0).initiator else 1)
        "hello"]) ∧
    (if 1 = 1 then (getSess statePair 0).initiator else 1) ≠ 1 ∧
    HiveServer.p2p stateSolo 1 "x" =
      (stateSolo, [Event.sent 1 (OutMsg.errorMsg "noP2PSession" "No Session"
        (some ("client " ++ shortId (getClient stateSolo 1).id ++
          " tries to send p2p message but not in a session")))]) ∧
    HiveServer.p2p stateSolo 0 "y" =
      (stateSolo, [Event.sent 0 (OutMsg.errorMsg "noPeer" "No Peer"
        (some ("client " ++ shortId (getClient stateSolo 0).id ++
          " tries to send p2p message but session has no peer")))]) := by
  have h := ((p2p_spec statePair 1 "hello").2 0 (by decide)).2 1 (by decide)
  refine ⟨h.1, h.2.1 ?_, (p2p_spec stateSolo 1 "x").1 (by decide),
    ((p2p_spec stateSolo 0 "y").2 0 (by decide)).1 (by decide)⟩
  intro hcon
  exact absurd hcon.2 (by decide)

/-! ### C7 -/

theorem digitChar_isDigit : ∀ i : Fin 10, (digitChar i).isDigit = true := by decide

theorem lookupA_eq_none_of_not_contains (l : List (String × Nat)) (k : String)
    (h : (l.map Prod.fst).contains k = false) : lookupA l k = none := by
  induction l with
  | nil => rfl
  | cons x xs ih =>
    simp only [List.map_cons, List.contains_cons, Bool.or_eq_false_iff] at h
    unfold lookupA
    rw [if_neg (by simpa using fun he => by simp [he] at h)]
    exact ih h.2

theorem genSessionIdAux_spec (sessions : List (String × Nat)) :
    ∀ fuel draws sid, genSessionIdAux sessions fuel draws = some sid →
      sid.length = 6 ∧ (∀ c ∈ sid.data, c.isDigit) ∧ lookupA sessions sid = none := by
  intro fuel
  induction fuel with
  | zero =>
    intro draws sid h
    simp [genSessionIdAux] at h
  | succ n ih =>
    intro draws sid h
    unfold genSessionIdAux at h
    by_cases h6 : draws.length < 6
    · rw [if_pos h6] at h
      cases h
    · rw [if_neg h6] at h
      by_cases hc : (sessions.map Prod.fst).contains (idFromDraws (draws.take 6)) = true
      · rw [if_pos hc] at h
        exact ih (draws.drop 6) sid h
      · rw [if_neg hc] at h
        cases h
        refine ⟨?_, ?_, ?_⟩
        · show (List.map digitChar (draws.take 6)).length = 6
          rw [List.length_map, List.length_take]
          omega
        · intro c hc'
          rcases List.mem_map.mp hc' with ⟨i, _, hi⟩
          rw [← hi]
          exact digitChar_isDigit i
        · exact lookupA_eq_none_of_not_contains _ _ (Bool.not_eq_true _ ▸ hc)

theorem getD_append_length {α : Type} (l : List α) (a d : α) :
    (l ++ [a]).getD l.length d = a := by
  induction l with
  | nil => rfl
  | cons x xs ih => simpa using ih

theorem lookupA_insertA_self (l : List (String × Nat)) (k : String) (v : Nat) :
    lookupA (insertA l k v) k = some v := by
  induction l with
  | nil => simp [insertA, lookupA]
  | cons x xs ih =>
    unfold insertA
    by_cases hx : x.1 = k
    · rw [if_pos hx]
      simp [lookupA]
    · rw [if_neg hx]
      unfold lookupA
      rw [if_neg hx]
      exact ih

/-- C7: every successful new-session request generates a 6-character numeric
session id absent from the registry (regenerating on collision), creates a
session with the caller as initiator, an empty peer slot and the supplied
configuration, registers it, binds the caller's back-reference, and replies
with sessionCreated carrying the id. -/
theorem createNewSession_spec (s : ServerState) (r : Nat) (cfg : GameConfig)
    (draws : List (Fin 10)) (sid : String)
    (hr : r < s.clientObjs.length)
    (hgen : HiveServer.genSessionId s.sessions draws = some sid) :
    sid.length = 6 ∧
    (∀ c ∈ sid.data, c.isDigit) ∧
    lookupA s.sessions sid = none ∧
    ∃ st evs, HiveServer.createNewSession s r cfg draws = some (st, evs) ∧
      st.sessObjs = s.sessObjs ++ [⟨sid, r, none, cfg⟩] ∧
      st.sessions = insertA s.sessions sid s.sessObjs.length ∧
      lookupA st.sessions sid = some s.sessObjs.length ∧
      getSess st s.sessObjs.length = ⟨sid, r, none, cfg⟩ ∧
      (getClient st r).session = some s.sessObjs.length ∧
      evs = [Event.sent r (SessionCreatedMessage sid)] := by
  obtain ⟨hlen, hdig, hfresh⟩ := genSessionIdAux_spec s.sessions draws.length draws sid hgen
  refine ⟨hlen, hdig, hfresh, ?_⟩
  unfold HiveServer.createNewSession
  rw [hgen]
  dsimp only
  refine ⟨_, _, rfl, rfl, rfl, lookupA_insertA_self _ _ _, ?_, ?_, rfl⟩
  · show ((s.sessObjs ++ [(⟨sid, r, none, cfg⟩ : GameSession)]).getD s.sessObjs.length
        default) = (⟨sid, r, none, cfg⟩ : GameSession)
    exact getD_append_length s.sessObjs _ default
  · rw [getClient_setClientSession_self
      { clientObjs := s.clientObjs,
        sessObjs := s.sessObjs ++ [⟨sid, r, none, cfg⟩],
        clients := s.clients,
        sessions := insertA s.sessions sid s.sessObjs.length }
      r (some s.sessObjs.length) hr]

/-- Witness for C7: from the one-client state, createNewSession with the
drawn digits 1-6 yields the fresh id "123456", registers the new session,
binds client 0 and replies sessionCreated. -/
theorem createNewSession_spec_witness :
    lookupA stateUnbound.sessions "123456" = none ∧
    ∃ st evs, HiveServer.createNewSession stateUnbound 0 cfgTrue drawsSix =
        some (st, evs) ∧
      getSess st 0 = ⟨"123456", 0, none, cfgTrue⟩ ∧
      (getClient st 0).session = some 0 ∧
      evs = [Event.sent 0 (SessionCreatedMessage "123456")] := by
  obtain ⟨_, _, hfresh, st, evs, heq, _, _, _, hgs, hcl, hevs⟩ :=
    createNewSession_spec stateUnbound 0 cfgTrue drawsSix "123456" (by decide) rfl
  exact ⟨hfresh, st, evs, heq, hgs, hcl, hevs⟩

/-! ### C9 -/

theorem getClient_setClientAlive_self (s : ServerState) (r : Nat) (v : Bool)
    (h : r < s.clientObjs.length) :
    getClient (setClientAlive s r v) r = { getClient s r with isAlive := v } :=
  getD_set_self s.clientObjs r _ default h

theorem getClient_setClientAlive_ne (s : ServerState) (r q : Nat) (v : Bool)
    (h : r ≠ q) :
    getClient (setClientAlive s r v) q = getClient s q :=
  getD_set_ne s.clientObjs r q _ default h

theorem pingLoop_clean (s : ServerState) (L : List (String × Nat))
    (hal : ∀ kv ∈ L, (getClient s kv.2).isAlive = true)
    (hnd : (L.map Prod.snd).Nodup)
    (hbound : ∀ kv ∈ L, kv.2 < s.clientObjs.length) :
    (pingLoop s L).2 = L.map (fun kv => Event.probe kv.2) ∧
    (∀ kv ∈ L, getClient (pingLoop s L).1 kv.2 =
      { getClient s kv.2 with isAlive := false }) ∧
    (∀ q, (∀ kv ∈ L, kv.2 ≠ q) → getClient (pingLoop s L).1 q = getClient s q) ∧
    (pingLoop s L).1.sessObjs = s.sessObjs ∧
    (pingLoop s L).1.clients = s.clients ∧
    (pingLoop s L).1.sessions = s.sessions := by
  induction L generalizing s with
  | nil =>
    refine ⟨rfl, ?_, fun q _ => rfl, rfl, rfl, rfl⟩
    intro kv h
    cases h
  | cons kv0 rest ih =>
    have halive : (getClient s kv0.2).isAlive = true := hal kv0 (List.mem_cons_self _ _)
    have hb0 : kv0.2 < s.clientObjs.length := hbound kv0 (List.mem_cons_self _ _)
    have hnd2 : (kv0.2 :: rest.map Prod.snd).Nodup := by simpa using hnd
    have hnotin : kv0.2 ∉ rest.map Prod.snd := (List.nodup_cons.mp hnd2).1
    have hnd3 : (rest.map Prod.snd).Nodup := (List.nodup_cons.mp hnd2).2
    have hframe : ∀ kv ∈ rest, getClient (setClientAlive s kv0.2 false) kv.2 =
        getClient s kv.2 := by
      intro kv hkv
      refine getD_set_ne s.clientObjs kv0.2 kv.2 _ default ?_
      intro he
      exact hnotin (he ▸ List.mem_map_of_mem Prod.snd hkv)
    have ihh := ih (setClientAlive s kv0.2 false)
      (fun kv hkv => (hframe kv hkv).symm ▸ hal kv (List.mem_cons_of_mem _ hkv))
      hnd3
      (fun kv hkv => by
        have hlen : (setClientAlive s kv0.2 false).clientObjs.length =
            s.clientObjs.length := by
          simp [setClientAlive]
        rw [hlen]
        exact hbound kv (List.mem_cons_of_mem _ hkv))
    have hstep : pingLoop s (kv0 :: rest) =
        ((pingLoop (setClientAlive s kv0.2 false) rest).1,
         Event.probe kv0.2 :: (pingLoop (setClientAlive s kv0.2 false) rest).2) := by
      show pingLoop s ((kv0.1, kv0.2) :: rest) = _
      simp only [pingLoop]
      rw [halive]
      simp
    rw [hstep]
    refine ⟨by rw [ihh.1]; rfl, ?_, ?_, ihh.2.2.2.1, ihh.2.2.2.2.1, ihh.2.2.2.2.2⟩
    · intro kv hkv
      rcases List.mem_cons.mp hkv with he | hm
      · rw [he]
        have hfr : ∀ kv2 ∈ rest, kv2.2 ≠ kv0.2 := by
          intro kv2 hkv2 he2
          exact hnotin (he2 ▸ List.mem_map_of_mem Prod.snd hkv2)
        rw [ihh.2.2.1 kv0.2 hfr,
          getClient_setClientAlive_self s kv0.2 false hb0]
      · rw [ihh.2.1 kv hm, hframe kv hm]
    · intro q hq
      have hq0 : kv0.2 ≠ q := hq kv0 (List.mem_cons_self _ _)
      rw [ihh.2.2.1 q (fun kv hkv => hq kv (List.mem_cons_of_mem _ hkv))]
      exact getClient_setClientAlive_ne s kv0.2 q false hq0

theorem pingLoop_dead (s : ServerState) (L1 : List (String × Nat)) (id0 : String)
    (r0 : Nat) (L2 : List (String × Nat))
    (hal : ∀ kv ∈ L1, (getClient s kv.2).isAlive = true)
    (hdead : (getClient s r0).isAlive = false)
    (hnd : (L1.map Prod.snd).Nodup)
    (hnr : ∀ kv ∈ L1, kv.2 ≠ r0)
    (hbound : ∀ kv ∈ L1, kv.2 < s.clientObjs.length) :
    (pingLoop s (L1 ++ (id0, r0) :: L2)).2 =
      L1.map (fun kv => Event.probe kv.2) ++ [Event.terminated r0] ∧
    (∀ kv ∈ L1, getClient (pingLoop s (L1 ++ (id0, r0) :: L2)).1 kv.2 =
      { getClient s kv.2 with isAlive := false }) ∧
    (∀ q, (∀ kv ∈ L1, kv.2 ≠ q) →
      getClient (pingLoop s (L1 ++ (id0, r0) :: L2)).1 q = getClient s q) ∧
    (pingLoop s (L1 ++ (id0, r0) :: L2)).1.sessObjs = s.sessObjs ∧
    (pingLoop s (L1 ++ (id0, r0) :: L2)).1.clients = s.clients ∧
    (pingLoop s (L1 ++ (id0, r0) :: L2)).1.sessions = s.sessions := by
  induction L1 generalizing s with
  | nil =>
    have hstep : pingLoop s ([] ++ (id0, r0) :: L2) = (s, [Event.terminated r0]) := by
      show pingLoop s ((id0, r0) :: L2) = _
      simp only [pingLoop]
      rw [hdead]
      simp
    rw [hstep]
    refine ⟨rfl, ?_, fun q _ => rfl, rfl, rfl, rfl⟩
    intro kv h
    cases h
  | cons kv0 rest ih =>
    have halive : (getClient s kv0.2).isAlive = true := hal kv0 (List.mem_cons_self _ _)
    have hb0 : kv0.2 < s.clientObjs.length := hbound kv0 (List.mem_cons_self _ _)
    have hnd2 : (kv0.2 :: rest.map Prod.snd).Nodup := by simpa using hnd
    have hnotin : kv0.2 ∉ rest.map Prod.snd := (List.nodup_cons.mp hnd2).1
    have hnd3 : (rest.map Prod.snd).Nodup := (List.nodup_cons.mp hnd2).2
    have hframe : ∀ kv ∈ rest, getClient (setClientAlive s kv0.2 false) kv.2 =
        getClient s kv.2 := by
      intro kv hkv
      refine getD_set_ne s.clientObjs kv0.2 kv.2 _ default ?_
      intro he
      exact hnotin (he ▸ List.mem_map_of_mem Prod.snd hkv)
    have hdead2 : getClient (setClientAlive s kv0.2 false) r0 = getClient s r0 :=
      getClient_setClientAlive_ne s kv0.2 r0 false (hnr kv0 (List.mem_cons_self _ _))
    have ihh := ih (setClientAlive s kv0.2 false)
      (fun kv hkv => (hframe kv hkv).symm ▸ hal kv (List.mem_cons_of_mem _ hkv))
      (hdead2.symm ▸ hdead)
      hnd3
      (fun kv hkv => hnr kv (List.mem_cons_of_mem _ hkv))
      (fun kv hkv => by
        have hlen : (setClientAlive s kv0.2 false).clientObjs.length =
            s.clientObjs.length := by
          simp [setClientAlive]
        rw [hlen]
        exact hbound kv (List.mem_cons_of_mem _ hkv))
    have hstep : pingLoop s ((kv0 :: rest) ++ (id0, r0) :: L2) =
        ((pingLoop (setClientAlive s kv0.2 false) (rest ++ (id0, r0) :: L2)).1,
         Event.probe kv0.2 ::
           (pingLoop (setClientAlive s kv0.2 false) (rest ++ (id0, r0) :: L2)).2) := by
      show pingLoop s ((kv0.1, kv0.2) :: (rest ++ (id0, r0) :: L2)) = _
      simp only [pingLoop]
      rw [halive]
      simp
    rw [hstep]
    refine ⟨by rw [ihh.1]; rfl, ?_, ?_, ihh.2.2.2.1, ihh.2.2.2.2.1, ihh.2.2.2.2.2⟩
    · intro kv hkv
      rcases List.mem_cons.mp hkv with he | hm
      · rw [he]
        have hfr : ∀ kv2 ∈ rest, kv2.2 ≠ kv0.2 := by
          intro kv2 hkv2 he2
          exact hnotin (he2 ▸ List.mem_map_of_mem Prod.snd hkv2)
        rw [ihh.2.2.1 kv0.2 hfr,
          getClient_setClientAlive_self s kv0.2 false hb0]
      · rw [ihh.2.1 kv hm, hframe kv hm]
    · intro q hq
      have hq0 : kv0.2 ≠ q := hq kv0 (List.mem_cons_self _ _)
      rw [ihh.2.2.1 q (fun kv hkv => hq kv (List.mem_cons_of_mem _ hkv))]
      exact getClient_setClientAlive_ne s kv0.2 q false hq0

/-- C9: one liveness-sweep pass, iterating over the registered clients,
terminates the first client found with a cleared liveness flag and stops
there, leaving later clients untouched; every client reached before it — and
every client, when none is dead — has its flag cleared and receives a
non-blocking probe. -/
theorem ping_spec (s : ServerState) :
    (∀ L1 id0 r0 L2, s.clients = L1 ++ (id0, r0) :: L2 →
      (∀ kv ∈ L1, (getClient s kv.2).isAlive = true) →
      (getClient s r0).isAlive = false →
      (L1.map Prod.snd).Nodup →
      (∀ kv ∈ L1, kv.2 ≠ r0) →
      (∀ kv ∈ L1, kv.2 < s.clientObjs.length) →
      (HiveServer.ping s).2 =
        L1.map (fun kv => Event.probe kv.2) ++ [Event.terminated r0] ∧
      (∀ kv ∈ L1, getClient (HiveServer.ping s).1 kv.2 =
        { getClient s kv.2 with isAlive := false }) ∧
      (∀ q, (∀ kv ∈ L1, kv.2 ≠ q) →
        getClient (HiveServer.ping s).1 q = getClient s q)) ∧
    ((∀ kv ∈ s.clients, (getClient s kv.2).isAlive = true) →
      (s.clients.map Prod.snd).Nodup →
      (∀ kv ∈ s.clients, kv.2 < s.clientObjs.length) →
      (HiveServer.ping s).2 = s.clients.map (fun kv => Event.probe kv.2) ∧
      (∀ kv ∈ s.clients, getClient (HiveServer.ping s).1 kv.2 =
        { getClient s kv.2 with isAlive := false })) := by
  constructor
  · intro L1 id0 r0 L2 hcl hal hdead hnd hnr hbound
    have h := pingLoop_dead s L1 id0 r0 L2 hal hdead hnd hnr hbound
    unfold HiveServer.ping
    rw [hcl]
    exact ⟨h.1, h.2.1, h.2.2.1⟩
  · intro hal hnd hbound
    have h := pingLoop_clean s s.clients hal hnd hbound
    unfold HiveServer.ping
    exact ⟨h.1, h.2.1⟩

/-- The pair state after one sweep pass: both clients probed, flags cleared. -/
def stateProbed : ServerState := (HiveServer.ping statePair).1

/-- Witness for C9: at the freshly joined pair both clients are alive, so one
pass probes both; at the already-probed pair the first client's flag is still
false, so the next pass terminates it immediately and probes nobody. -/
theorem ping_spec_witness :
    (HiveServer.ping statePair).2 = [Event.probe 0, Event.probe 1] ∧
    (HiveServer.ping stateProbed).2 = [Event.terminated 0] ∧
    getClient (HiveServer.ping stateProbed).1 1 = getClient stateProbed 1 := by
  have hclean := (ping_spec statePair).2 (by decide) (by decide) (by decide)
  have hdead := (ping_spec stateProbed).1 [] "aaa" 0 [("bbb", 1)] (by decide)
    (by intro kv h; cases h) (by decide) (by decide) (by intro kv h; cases h)
    (by intro kv h; cases h)
  refine ⟨hclean.1.trans (by rfl), hdead.1.trans (by rfl), ?_⟩
  exact hdead.2.2 1 (by intro kv h; cases h)

/-! ### C1 and C2: the joinSession early-binding bug -/

/-- opsPair extended: a third client connects and tries to join the full
session "123456". -/
def opsFull : List Op :=
  opsPair ++ [Op.accept "ccc" "ip3", Op.joinSession 2 (some "123456")]

/-- C1: cross-reference consistency holds after each of the first five
operations but is broken by the sixth — the join rejected with sessionFull
leaves client 2's back-reference set to session 0 although client 2 occupies
neither of its slots. -/
theorem consistency_broken_by_full_join :
    consistent (runOps initState opsPair) = true ∧
    consistent (runOps initState (opsPair ++ [Op.accept "ccc" "ip3"])) = true ∧
    consistent (runOps initState opsFull) = false ∧
    (getClient (runOps initState opsFull) 2).session = some 0 ∧
    (getSess (runOps initState opsFull) 0).initiator = 0 ∧
    (getSess (runOps initState opsFull) 0).peer = some 1 := by
  refine ⟨by decide, by decide, by decide, by decide, by decide, by decide⟩

/-- C2: joinSession answering sessionFull mutates state — the unbound client 2
is left bound to the full session, and a subsequent join to any other id is
rejected with sessionExists. -/
theorem joinSession_sessionFull_mutates_binding :
    (getClient stateTriple 2).session = none ∧
    (HiveServer.joinSession stateTriple 2 (some "123456")).2 =
      [Event.sent 2 ErrorMessage.sessionFull] ∧
    (getClient (HiveServer.joinSession stateTriple 2 (some "123456")).1 2).session =
      some 0 ∧
    (HiveServer.joinSession
        (HiveServer.joinSession stateTriple 2 (some "123456")).1 2 (some "999999")).2 =
      [Event.sent 2 (OutMsg.errorMsg "sessionExists" "Cannot Join Session"
        (some "Already in session 123456, leave first"))] := by
  refine ⟨by decide, rfl, by decide, rfl⟩

/-! ### C8 -/

/-- C8 counterexample: a message with the known tag joinSession but no body
fields is not answered with invalidRequest — it is dispatched to joinSession,
which replies sessionNotFound. -/
theorem onMessage_missing_body_counterexample :
    HiveServer.onMessage stateUnbound 0 "m"
        (some (Json.obj [("context", Json.str "joinSession")])) [] =
      Except.ok (some (stateUnbound, [Event.sent 0 ErrorMessage.sessionNotFound])) ∧
    ErrorMessage.sessionNotFound ≠ ErrorMessage.invalidRequest := by
  refine ⟨rfl, ?_⟩
  intro h
  unfold ErrorMessage.sessionNotFound ErrorMessage.invalidRequest at h
  injection h with h1 h2 h3
  exact absurd h1 (by decide)

/-- C8 amended: an unparseable outer payload, a parsed non-null non-object
payload, and an object payload with an unknown or missing context tag all get
an invalidRequest reply with no state change and no connection close; but a
known tag with a missing or malformed body is dispatched to its handler
instead — joinSession without sessionId replies sessionNotFound via the
handler, newSession with a missing config throws an uncaught TypeError, and a
payload parsing to JSON null throws reading the tag. -/
theorem onMessage_invalid_spec (s : ServerState) (r : Nat) (raw : String)
    (draws : List (Fin 10)) :
    (HiveServer.onMessage s r raw none draws =
      Except.ok (some (s, [Event.sent r ErrorMessage.invalidRequest]))) ∧
    (∀ fields, knownTag (jLookup fields "context") = false →
      HiveServer.onMessage s r raw (some (Json.obj fields)) draws =
        Except.ok (some (s, [Event.sent r ErrorMessage.invalidRequest]))) ∧
    (∀ b, HiveServer.onMessage s r raw (some (Json.bool b)) draws =
      Except.ok (some (s, [Event.sent r ErrorMessage.invalidRequest]))) ∧
    (∀ n, HiveServer.onMessage s r raw (some (Json.num n)) draws =
      Except.ok (some (s, [Event.sent r ErrorMessage.invalidRequest]))) ∧
    (∀ t, HiveServer.onMessage s r raw (some (Json.str t)) draws =
      Except.ok (some (s, [Event.sent r ErrorMessage.invalidRequest]))) ∧
    (∀ elems, HiveServer.onMessage s r raw (some (Json.arr elems)) draws =
      Except.ok (some (s, [Event.sent r ErrorMessage.invalidRequest]))) ∧
    (HiveServer.onMessage s r raw (some Json.null) draws = Except.error ()) ∧
    (∀ fields, jLookup fields "context" = some (Json.str "newSession") →
      jLookup fields "config" = none →
      HiveServer.onMessage s r raw (some (Json.obj fields)) draws =
        Except.error ()) := by
  refine ⟨rfl, ?_, fun b => rfl, fun n => rfl, fun t => rfl, fun elems => rfl,
    rfl, ?_⟩
  · intro fields hk
    unfold HiveServer.onMessage
    dsimp only
    rcases hctx : jLookup fields "context" with _ | j
    · rfl
    · rcases j with _ | b | n | t | elems | flds
      · rfl
      · rfl
      · rfl
      · rw [hctx] at hk
        simp only [knownTag, Bool.or_eq_false_iff] at hk
        obtain ⟨⟨⟨⟨h1, h2⟩, h3⟩, h4⟩, h5⟩ := hk
        simp only [decide_eq_false_iff_not] at h1 h2 h3 h4 h5
        split
        · rename_i heq
          injection heq with heq2
          injection heq2 with heq3
          exact absurd heq3 h1
        · rename_i heq
          injection heq with heq2
          injection heq2 with heq3
          exact absurd heq3 h2
        · rename_i heq
          injection heq with heq2
          injection heq2 with heq3
          exact absurd heq3 h3
        · rename_i heq
          injection heq with heq2
          injection heq2 with heq3
          exact absurd heq3 h4
        · rename_i heq
          injection heq with heq2
          injection heq2 with heq3
          exact absurd heq3 h5
        · rfl
      · rfl
      · rfl
  · intro fields hctx hcfg
    unfold HiveServer.onMessage
    dsimp only
    rw [hctx, hcfg]
    rfl

/-- Witness for C8 (amended) at concrete inputs: parse failure and an unknown
tag produce invalidRequest without touching the state; a null payload and a
newSession without config throw. -/
theorem onMessage_invalid_spec_witness :
    HiveServer.onMessage stateUnbound 0 "m" none [] =
      Except.ok (some (stateUnbound, [Event.sent 0 ErrorMessage.invalidRequest])) ∧
    HiveServer.onMessage stateUnbound 0 "m"
        (some (Json.obj [("context", Json.str "bogus")])) [] =
      Except.ok (some (stateUnbound, [Event.sent 0 ErrorMessage.invalidRequest])) ∧
    HiveServer.onMessage stateUnbound 0 "m" (some Json.null) [] = Except.error () ∧
    HiveServer.onMessage stateUnbound 0 "m"
        (some (Json.obj [("context", Json.str "newSession")])) [] =
      Except.error () := by
  have h := onMessage_invalid_spec stateUnbound 0 "m" []
  exact ⟨h.1, h.2.1 [("context", Json.str "bogus")] (by decide), h.2.2.2.2.2.2.1,
    h.2.2.2.2.2.2.2 [("context", Json.str "newSession")] rfl rfl⟩

end Hive
